import Mathlib

/-!
Shallow embedding of `sunslack.py` (0x9900/sun-slack), the NOAA space-weather
Slack bot.  The pipeline under study: download a text feed, parse it into a
`NoaaData` value, compare it with the pickled snapshot from the previous run,
write the cache and post to Slack when the snapshot changed.

Python exceptions are modelled by `Except PyErr`; the distinct Python
exception classes that the source can raise or catch are the constructors of
`PyErr`.  The pickled cache file on disk is modelled by `CacheFile`:
`missing` raises `FileNotFoundError` on `open`, `truncated` makes
`pickle.load` raise `EOFError` (empty or cut-off stream), `corrupt` makes
`pickle.load` raise `pickle.UnpicklingError` (garbage bytes), and `stored d`
round-trips the value `d` (pickle round-trips these values faithfully).

String primitives (`strip`, `split`, `startswith`, `int`, `strptime`) are
re-implemented over `List Char` with Python's semantics for the inputs this
program meets; deviations that cannot matter here are noted at each
definition.
-/

/-- Python exception classes raised or caught by the source. -/
inductive PyErr where
  | indexError
  | valueError
  | attributeError
  | unpicklingError
deriving DecidableEq

instance {ε α : Type} [DecidableEq ε] [DecidableEq α] : DecidableEq (Except ε α) :=
  fun a b =>
    match a, b with
    | Except.ok x, Except.ok y =>
      match decEq x y with
      | isTrue h => isTrue (by rw [h])
      | isFalse h => isFalse (by intro hc; cases hc; exact h rfl)
    | Except.error x, Except.error y =>
      match decEq x y with
      | isTrue h => isTrue (by rw [h])
      | isFalse h => isFalse (by intro hc; cases hc; exact h rfl)
    | Except.ok _, Except.error _ => isFalse (by intro hc; cases hc)
    | Except.error _, Except.ok _ => isFalse (by intro hc; cases hc)

/-- Characters Python's `str.strip()` and `str.split()` treat as whitespace
(ASCII subset; the NOAA feeds contain no exotic Unicode whitespace). -/
def pyIsSpace (c : Char) : Bool :=
  c = ' ' || c = '\t' || c = '\n' || c = '\r' || c = Char.ofNat 11 || c = Char.ofNat 12

/-- Python `str.strip()`. -/
def pyStrip (s : String) : String :=
  String.mk (((s.data.dropWhile pyIsSpace).reverse.dropWhile pyIsSpace).reverse)

/-- Helper for `pySplit`: walk the characters, accumulating the current token
reversed. -/
def splitWsAux : List Char → List Char → List String
  | [], cur => if cur = [] then [] else [String.mk cur.reverse]
  | c :: rest, cur =>
    if pyIsSpace c then
      if cur = [] then splitWsAux rest []
      else String.mk cur.reverse :: splitWsAux rest []
    else splitWsAux rest (c :: cur)

/-- Python `str.split()` with no argument: split on whitespace runs, no empty
tokens. -/
def pySplit (s : String) : List String := splitWsAux s.data []

/-- List-level string prefix test. -/
def listStartsWith : List Char → List Char → Bool
  | _, [] => true
  | [], _ :: _ => false
  | c :: cs, d :: ds => c = d && listStartsWith cs ds

/-- Python `str.startswith(pre)`. -/
def pyStartsWith (s pre : String) : Bool := listStartsWith s.data pre.data

/-- Lower-case an ASCII letter (identity elsewhere). -/
def lowerChar (c : Char) : Char :=
  if 'A' ≤ c ∧ c ≤ 'Z' then Char.ofNat (c.toNat + 32) else c

/-- Lower-case a string, used for `strptime`'s case-insensitive matching. -/
def pyLower (s : String) : String := String.mk (s.data.map lowerChar)

/-- Value of a decimal digit character. -/
def digitVal (c : Char) : Option Nat :=
  if '0' ≤ c ∧ c ≤ '9' then some (c.toNat - '0'.toNat) else none

/-- Accumulate decimal digits; `none` on the first non-digit. -/
def parseNatAux : List Char → Nat → Option Nat
  | [], acc => some acc
  | c :: rest, acc =>
    match digitVal c with
    | some v => parseNatAux rest (acc * 10 + v)
    | none => none

/-- Python `int(token)` for a whitespace-free token: optional sign then
decimal digits.  (Python also allows underscore digit grouping, which the
NOAA feeds never contain.) -/
def pyInt (s : String) : Option Int :=
  match s.data with
  | [] => none
  | '-' :: rest =>
    if rest = [] then none else (parseNatAux rest 0).map (fun n => -(n : Int))
  | '+' :: rest =>
    if rest = [] then none else (parseNatAux rest 0).map (fun n => (n : Int))
  | cs => (parseNatAux cs 0).map (fun n => (n : Int))

/-- A naive `datetime` value: the source only ever builds dates with a
year/month/day and an optional hour/minute (seconds are always zero). -/
structure DateTime where
  year : Nat
  month : Nat
  day : Nat
  hour : Nat
  minute : Nat
deriving DecidableEq

/-- Month number for a `%b` abbreviation, matched case-insensitively as
Python's `strptime` does in the C locale. -/
def monthNum (s : String) : Option Nat :=
  match pyLower s with
  | "jan" => some 1
  | "feb" => some 2
  | "mar" => some 3
  | "apr" => some 4
  | "may" => some 5
  | "jun" => some 6
  | "jul" => some 7
  | "aug" => some 8
  | "sep" => some 9
  | "oct" => some 10
  | "nov" => some 11
  | "dec" => some 12
  | _ => none

/-- Gregorian leap-year test, as `datetime` validates it. -/
def isLeap (y : Nat) : Bool := (y % 4 = 0 && ¬ y % 100 = 0) || y % 400 = 0

/-- Days in a month, as `datetime` validates it. -/
def daysInMonth (y m : Nat) : Nat :=
  if m = 2 then (if isLeap y then 29 else 28)
  else if m = 4 ∨ m = 6 ∨ m = 9 ∨ m = 11 then 30
  else 31

/-- Construction of a `datetime`: validates the day against the month and the
`MINYEAR` bound (a four-digit `%Y` cannot exceed `MAXYEAR`). -/
def mkDateTime (y mo d h mi : Nat) : Option DateTime :=
  if 1 ≤ y ∧ 1 ≤ d ∧ d ≤ daysInMonth y mo then some ⟨y, mo, d, h, mi⟩ else none

/-- The `%Y` directive: exactly four decimal digits. -/
def parseYear (s : String) : Option Nat :=
  match s.data with
  | [a, b, c, d] =>
    match digitVal a, digitVal b, digitVal c, digitVal d with
    | some a, some b, some c, some d => some (((a * 10 + b) * 10 + c) * 10 + d)
    | _, _, _, _ => none
  | _ => none

/-- The `%d` directive on a whitespace-free token: one or two digits with
value 1 to 31. -/
def parseDay (s : String) : Option Nat :=
  match s.data with
  | [a] =>
    match digitVal a with
    | some v => if 1 ≤ v then some v else none
    | none => none
  | [a, b] =>
    match digitVal a, digitVal b with
    | some x, some y =>
      if 1 ≤ x * 10 + y ∧ x * 10 + y ≤ 31 then some (x * 10 + y) else none
    | _, _ => none
  | _ => none

/-- The `%H%M` directive pair on a four-digit token such as `1205`: two-digit
hour at most 23 then two-digit minute at most 59.  (`strptime`'s regex also
accepts a one-digit hour in a three-digit token; the NOAA feeds always emit
four digits.) -/
def parseHHMM (s : String) : Option (Nat × Nat) :=
  match s.data with
  | [a, b, c, d] =>
    match digitVal a, digitVal b, digitVal c, digitVal d with
    | some a, some b, some c, some d =>
      if a * 10 + b ≤ 23 ∧ c * 10 + d ≤ 59 then some (a * 10 + b, c * 10 + d)
      else none
    | _, _, _, _ => none
  | _ => none

/-- The `%Z` directive: the NOAA feeds stamp `UTC`; `strptime` accepts
`UTC`/`GMT` case-insensitively (plus the local zone names, never seen here). -/
def tzOk (s : String) : Bool := pyLower s = "utc" || pyLower s = "gmt"

/-- Line 190 / line 239: `datetime.strptime(line, ':Issued: %Y %b %d %H%M %Z')`.
A failed match raises `ValueError`.  The whitespace in the format matches
whitespace runs, so matching the whitespace-split tokens is equivalent on a
stripped line. -/
def strptimeIssued (line : String) : Except PyErr DateTime :=
  match pySplit line with
  | [t0, ty, tm, td, thm, tz] =>
    if t0 = ":Issued:" then
      match parseYear ty, monthNum tm, parseDay td, parseHHMM thm with
      | some y, some mo, some d, some (h, mi) =>
        if tzOk tz then
          match mkDateTime y mo d h mi with
          | some dt => Except.ok dt
          | none => Except.error PyErr.valueError
        else Except.error PyErr.valueError
      | _, _, _, _ => Except.error PyErr.valueError
    else Except.error PyErr.valueError
  | _ => Except.error PyErr.valueError

/-- Line 132: `datetime.strptime('... three tokens joined ...', "%Y %b %d")`
on the first three whitespace-split tokens of a data line. -/
def strptimeDate (a b c : String) : Option DateTime :=
  match parseYear a, monthNum b, parseDay c with
  | some y, some mo, some d => mkDateTime y mo d 0 0
  | _, _, _ => none

/-- One dated observation from the tabular feed: `SunRecord` (lines
127-155).  The Python object keeps `flux`, `a_index` and `kp_index` in the
`data` dict, exposed through properties; here they are plain fields. -/
structure SunRecord where
  date : DateTime
  flux : Int
  a_index : Int
  kp_index : Int
deriving DecidableEq

/-- Lines 131-136, `SunRecord.__init__(args)` where `args` is a split line.
Python evaluation order: the format/`strptime` of `args[0:3]` first (an
`IndexError` when fewer than three tokens, a `ValueError` on a bad date),
then `int(args[3])`, `int(args[4])`, `int(args[5])` in turn, each able to
raise `IndexError` (missing token) or `ValueError` (non-integer token). -/
def SunRecord.init (args : List String) : Except PyErr SunRecord :=
  match args.get? 0, args.get? 1, args.get? 2 with
  | some a, some b, some c =>
    match strptimeDate a b c with
    | none => Except.error PyErr.valueError
    | some dt =>
      match args.get? 3 with
      | none => Except.error PyErr.indexError
      | some s3 =>
        match pyInt s3 with
        | none => Except.error PyErr.valueError
        | some vFlux =>
          match args.get? 4 with
          | none => Except.error PyErr.indexError
          | some s4 =>
            match pyInt s4 with
            | none => Except.error PyErr.valueError
            | some vA =>
              match args.get? 5 with
              | none => Except.error PyErr.indexError
              | some s5 =>
                match pyInt s5 with
                | none => Except.error PyErr.valueError
                | some vK => Except.ok ⟨dt, vFlux, vA, vK⟩
  | _, _, _ => Except.error PyErr.indexError

/-- Lines 111-124, `NoaaData`: the issued timestamp plus the parsed fields
(`SunRecord`s for the flux feed, raw lines for the alerts feed). -/
structure NoaaData (α : Type) where
  date : Option DateTime
  fields : List α
deriving DecidableEq

/-- Lines 121-124, `NoaaData.__eq__`: `False` against `None`, otherwise it
compares ONLY the `date` attributes — the `fields` take no part. -/
def noaaEq {α : Type} (a : NoaaData α) (other : Option (NoaaData α)) : Bool :=
  match other with
  | none => false
  | some b => decide (a.date = b.date)

/-- State of the pickled cache file a run starts from.  `missing`: `open`
raises `FileNotFoundError`; `truncated`: `pickle.load` raises `EOFError`;
`corrupt`: `pickle.load` raises `pickle.UnpicklingError`; `stored d`:
`pickle.load` returns `d`. -/
inductive CacheFile (α : Type) where
  | missing
  | truncated
  | corrupt
  | stored (data : NoaaData α)
deriving DecidableEq

/-- Lines 259-266, `readcache`: the `except` clause catches exactly
`FileNotFoundError` and `EOFError`, turning them into `None`; an
`UnpicklingError` from corrupted pickle bytes is not caught and propagates. -/
def readcache {α : Type} (cachefile : CacheFile α) : Except PyErr (Option (NoaaData α)) :=
  match cachefile with
  | CacheFile.missing => Except.ok none
  | CacheFile.truncated => Except.ok none
  | CacheFile.corrupt => Except.error PyErr.unpicklingError
  | CacheFile.stored d => Except.ok (some d)

/-- Lines 187-195 (loop body of `Flux.download_flux`): strip the line; an
`:Issued:` line re-assigns `predictions.date` (every occurrence overwrites);
blank, `:`- and `#`-lines are skipped; anything else is split and fed to
`SunRecord`, whose exception propagates uncaught. -/
def parseFluxLines : List String → NoaaData SunRecord → Except PyErr (NoaaData SunRecord)
  | [], acc => Except.ok acc
  | l :: rest, acc =>
    if pyStartsWith (pyStrip l) ":Issued:" then
      match strptimeIssued (pyStrip l) with
      | Except.error e => Except.error e
      | Except.ok d => parseFluxLines rest { acc with date := some d }
    else if pyStrip l = "" || pyStartsWith (pyStrip l) ":" || pyStartsWith (pyStrip l) "#" then
      parseFluxLines rest acc
    else
      match SunRecord.init (pySplit (pyStrip l)) with
      | Except.error e => Except.error e
      | Except.ok r => parseFluxLines rest { acc with fields := acc.fields ++ [r] }

/-- Lines 176-195, `Flux.download_flux`, after the request returned: on a
non-200 status the fresh empty `NoaaData()` (date `None`, no fields) is
returned as a normal value; on 200 the body lines are parsed.  The argument
`body` is `req.text.splitlines()`. -/
def download_flux (status : Nat) (body : List String) : Except PyErr (NoaaData SunRecord) :=
  if status = 200 then parseFluxLines body ⟨none, []⟩ else Except.ok ⟨none, []⟩

/-- Lines 236-243 (loop body of `Alerts.download`): like the flux loop but
the gate is `startswith(':Issued')` (no trailing colon) and non-marker lines
are retained verbatim. -/
def parseAlertLines : List String → NoaaData String → Except PyErr (NoaaData String)
  | [], acc => Except.ok acc
  | l :: rest, acc =>
    if pyStartsWith (pyStrip l) ":Issued" then
      match strptimeIssued (pyStrip l) with
      | Except.error e => Except.error e
      | Except.ok d => parseAlertLines rest { acc with date := some d }
    else if pyStrip l = "" || pyStartsWith (pyStrip l) ":" || pyStartsWith (pyStrip l) "#" then
      parseAlertLines rest acc
    else parseAlertLines rest { acc with fields := acc.fields ++ [pyStrip l] }

/-- Lines 226-245, `Alerts.download` after the request returned. -/
def Alerts.download (status : Nat) (body : List String) : Except PyErr (NoaaData String) :=
  if status = 200 then parseAlertLines body ⟨none, []⟩ else Except.ok ⟨none, []⟩

/-- The retained alert lines that survive the delivery filter of line 256:
every line starting with `No space weather` is dropped. -/
def Alerts.textLines (d : NoaaData String) : List String :=
  d.fields.filter (fun f => !(pyStartsWith f "No space weather"))

/-- Python `'\n'.join`. -/
def joinNL : List String → String
  | [] => ""
  | [s] => s
  | s :: rest => s ++ "\n" ++ joinNL rest

/-- Lines 254-256, the `Alerts.text` property: the newline-join of the
fields, filtered. -/
def Alerts.text (d : NoaaData String) : String := joinNL (Alerts.textLines d)

/-- Lines 161-173 and 212-224, the shared shape of `Flux.__init__` and
`Alerts.__init__`: read the cache, download, compare with `NoaaData.__eq__`;
when unequal set `newdata` and overwrite the cache file, otherwise leave the
cache file untouched.  Returns the cache file after the call and either the
propagated exception or `(downloaded data, newdata)`. -/
def noaaDetect {α : Type} (cache : CacheFile α) (dl : Except PyErr (NoaaData α)) :
    CacheFile α × Except PyErr (NoaaData α × Bool) :=
  match readcache cache with
  | Except.error e => (cache, Except.error e)
  | Except.ok cached =>
    match dl with
    | Except.error e => (cache, Except.error e)
    | Except.ok data =>
      if noaaEq data cached then (cache, Except.ok (data, false))
      else (CacheFile.stored data, Except.ok (data, true))

/-- Outcome of one `get_flux` call: whether a new snapshot was detected,
whether a Slack upload was attempted, and whether it was delivered (a
`SlackApiError` is caught and only logged). -/
structure FluxReport where
  newdata : Bool
  uploadAttempted : Bool
  delivered : Bool
deriving DecidableEq

/-- Lines 348-364, `get_flux`: build `Flux` (cache read + download +
compare + conditional cache write), return early when nothing is new,
otherwise plot and upload.  `plot` raises `ValueError` on an empty record
list (`min` of an empty sequence, line 314) and the title of line 360
raises `AttributeError` when `flux.time` is `None`; both happen AFTER the
cache write of line 173 and are not caught.  `slackOk` abstracts whether
Slack delivery succeeds; a failure (`SlackApiError`) is caught at line 363. -/
def get_flux (cache : CacheFile SunRecord) (dl : Except PyErr (NoaaData SunRecord))
    (slackOk : Bool) : CacheFile SunRecord × Except PyErr FluxReport :=
  match noaaDetect cache dl with
  | (c, Except.error e) => (c, Except.error e)
  | (c, Except.ok (_, false)) => (c, Except.ok ⟨false, false, false⟩)
  | (c, Except.ok (data, true)) =>
    match data.fields with
    | [] => (c, Except.error PyErr.valueError)
    | _ :: _ =>
      match data.date with
      | none => (c, Except.error PyErr.attributeError)
      | some _ => (c, Except.ok ⟨true, true, slackOk⟩)

/-- Outcome of one `get_muf` call. -/
structure MufRun where
  uploadAttempted : Bool
  delivered : Bool
deriving DecidableEq

/-- Lines 367-378, `get_muf`: if the video file exists, upload it (the
`SlackApiError` is caught), else return.  The function performs no cache
read and no cache write; the cache file is threaded through unchanged to
state that frame condition. -/
def get_muf (cache : CacheFile SunRecord) (mufExists slackOk : Bool) :
    CacheFile SunRecord × MufRun :=
  if mufExists then (cache, ⟨true, slackOk⟩) else (cache, ⟨false, false⟩)

/-- Lines 414-419 of `main` with `--flux` and `--muf` selected: `get_flux`
runs first; an exception escaping it propagates out of `main`, so `get_muf`
is only reached when `get_flux` returned normally. -/
def mainRun (cache : CacheFile SunRecord) (status : Nat) (body : List String)
    (slackOk mufExists : Bool) :
    CacheFile SunRecord × Except PyErr (FluxReport × MufRun) :=
  match get_flux cache (download_flux status body) slackOk with
  | (c, Except.error e) => (c, Except.error e)
  | (c, Except.ok fr) =>
    match get_muf c mufExists slackOk with
    | (c2, mr) => (c2, Except.ok (fr, mr))

/-- A populated snapshot: issued 2024-03-04 12:05, one record. -/
def snapA : NoaaData SunRecord :=
  ⟨some ⟨2024, 3, 4, 12, 5⟩, [⟨⟨2024, 3, 5, 0, 0⟩, 120, 6, 2⟩]⟩

/-- Like `snapA` but the single record's `kp_index` is 3 instead of 2. -/
def snapB : NoaaData SunRecord :=
  ⟨some ⟨2024, 3, 4, 12, 5⟩, [⟨⟨2024, 3, 5, 0, 0⟩, 120, 6, 3⟩]⟩

/-- The comparison of a snapshot with itself succeeds (reflexivity of the
date comparison). -/
theorem noaaEq_self {α : Type} (d : NoaaData α) : noaaEq d (some d) = true := by
  simp [noaaEq]

/-- Claim C1, counterexample: `snapA` and `snapB` share `issued_at` and
differ only in the single record's `kp_index`, yet `NoaaData.__eq__` calls
them EQUAL, because it compares only the `date` attribute — the claim's
"unequal" prediction is false on the code. -/
theorem snapshot_eq_ignores_kp_index :
    noaaEq snapA (some snapB) = true ∧ snapA.date = snapB.date
  ∧ ¬ snapA.fields = snapB.fields ∧ ¬ snapA = snapB := by decide

/-- Claim C1, amended: two snapshots are equal iff the other is present and
their `issued_at` dates are equal; the record sequences take no part in the
equality.  (Hence snapshots with identical `issued_at` and identical records
are equal, but so are snapshots with identical `issued_at` and different
records.) -/
theorem noaaData_eq_date_only (a b : NoaaData SunRecord) :
    noaaEq a none = false ∧ (noaaEq a (some b) = true ↔ a.date = b.date) := by
  exact ⟨rfl, by simp [noaaEq]⟩

/-- Claim C1, witness: the amended equality applied to a concrete pair. -/
theorem noaaData_eq_date_only_w : noaaEq snapA (some snapA) = true :=
  (noaaData_eq_date_only snapA snapA).2.mpr rfl

/-- Claim C2: given a successful cache load, the detector reports new iff the
load found nothing or found a value unequal to the downloaded snapshot; it
overwrites the cache file exactly when it reports new, leaves it untouched
otherwise, and a second run on the same snapshot always reports not-new and
leaves the cache file unchanged. -/
theorem noaaDetect_isNew_iff (cache : CacheFile SunRecord) (data : NoaaData SunRecord)
    (cached : Option (NoaaData SunRecord)) (h : readcache cache = Except.ok cached) :
    ((noaaDetect cache (Except.ok data)).2 = Except.ok (data, true) ↔
      (cached = none ∨ ∃ c, cached = some c ∧ noaaEq data (some c) = false))
  ∧ ((noaaDetect cache (Except.ok data)).2 = Except.ok (data, true) →
      (noaaDetect cache (Except.ok data)).1 = CacheFile.stored data)
  ∧ ((noaaDetect cache (Except.ok data)).2 = Except.ok (data, false) →
      (noaaDetect cache (Except.ok data)).1 = cache)
  ∧ (noaaDetect ((noaaDetect cache (Except.ok data)).1) (Except.ok data)).2 =
      Except.ok (data, false)
  ∧ (noaaDetect ((noaaDetect cache (Except.ok data)).1) (Except.ok data)).1 =
      (noaaDetect cache (Except.ok data)).1 := by
  unfold noaaDetect
  rw [h]
  cases cached with
  | none => simp [noaaEq, readcache, noaaEq_self]
  | some c =>
    cases hq : noaaEq data (some c) with
    | false => simp [hq, readcache, noaaEq_self]
    | true => simp [hq, h]

/-- Claim C2, witness: a missing cache makes the first run new and the rerun
not-new. -/
theorem noaaDetect_isNew_iff_w :
    (noaaDetect CacheFile.missing (Except.ok snapA)).2 = Except.ok (snapA, true)
  ∧ (noaaDetect ((noaaDetect CacheFile.missing (Except.ok snapA)).1) (Except.ok snapA)).2 =
      Except.ok (snapA, false) := by
  have h := noaaDetect_isNew_iff CacheFile.missing snapA none rfl
  exact ⟨h.1.mpr (Or.inl rfl), h.2.2.2.1⟩

/-- Claim C3, counterexample: a data line with only four tokens makes
`SunRecord.__init__` raise `IndexError`; the exception is caught nowhere, so
`download_flux`, `Flux.__init__`, `get_flux` and `main` all abort with it —
the run ends before `get_muf` can process the MUF feed (both flags set, the
MUF file present), contradicting the feed-local-failure claim. -/
theorem malformed_line_aborts_run :
    download_flux 200 [":Issued: 2024 Mar 04 1205 UTC", "2024 Mar 05 120 6"] =
      Except.error PyErr.indexError
  ∧ mainRun CacheFile.missing 200 [":Issued: 2024 Mar 04 1205 UTC", "2024 Mar 05 120 6"]
      true true = (CacheFile.missing, Except.error PyErr.indexError) :=
  ⟨rfl, rfl⟩

/-- Claim C3, amended: a malformed data line (fewer than six tokens shown
here in full generality; non-integer or bad-date tokens analogously) makes
the feed's parse raise; no snapshot is produced and no cache write occurs
for that feed, but the exception is uncaught, so it aborts the entire run —
feeds processed later in the same invocation (the MUF upload) are skipped
rather than continuing. -/
theorem short_line_fails_and_fault_propagates :
    (∀ args : List String, args.length < 6 → ∃ e, SunRecord.init args = Except.error e)
  ∧ (∀ (cache : CacheFile SunRecord) (cached : Option (NoaaData SunRecord))
       (status : Nat) (body : List String) (slackOk mufExists : Bool) (e : PyErr),
      readcache cache = Except.ok cached →
      download_flux status body = Except.error e →
      mainRun cache status body slackOk mufExists = (cache, Except.error e)) := by
  constructor
  · intro args hlen
    rcases args with _ | ⟨a, _ | ⟨b, _ | ⟨c, _ | ⟨d, _ | ⟨e5, _ | ⟨f, rest⟩⟩⟩⟩⟩⟩
    · exact ⟨PyErr.indexError, rfl⟩
    · exact ⟨PyErr.indexError, rfl⟩
    · exact ⟨PyErr.indexError, rfl⟩
    · cases hd : strptimeDate a b c with
      | none => exact ⟨PyErr.valueError, by simp [SunRecord.init, List.get?, hd]⟩
      | some dt => exact ⟨PyErr.indexError, by simp [SunRecord.init, List.get?, hd]⟩
    · cases hd : strptimeDate a b c with
      | none => exact ⟨PyErr.valueError, by simp [SunRecord.init, List.get?, hd]⟩
      | some dt =>
        cases hi : pyInt d with
        | none => exact ⟨PyErr.valueError, by simp [SunRecord.init, List.get?, hd, hi]⟩
        | some v => exact ⟨PyErr.indexError, by simp [SunRecord.init, List.get?, hd, hi]⟩
    · cases hd : strptimeDate a b c with
      | none => exact ⟨PyErr.valueError, by simp [SunRecord.init, List.get?, hd]⟩
      | some dt =>
        cases hi : pyInt d with
        | none => exact ⟨PyErr.valueError, by simp [SunRecord.init, List.get?, hd, hi]⟩
        | some v =>
          cases hj : pyInt e5 with
          | none => exact ⟨PyErr.valueError, by simp [SunRecord.init, List.get?, hd, hi, hj]⟩
          | some w => exact ⟨PyErr.indexError, by simp [SunRecord.init, List.get?, hd, hi, hj]⟩
    · simp at hlen
      omega
  · intro cache cached status body slackOk mufExists e hc he
    unfold mainRun get_flux noaaDetect
    rw [hc, he]

/-- Claim C3, witness: the general statements applied at a four-token line
and at the concrete malformed payload. -/
theorem short_line_fails_and_fault_propagates_w :
    (∃ e, SunRecord.init ["2024", "Mar", "05", "120"] = Except.error e)
  ∧ mainRun CacheFile.truncated 200 ["2024 Mar 05 120 6"] false true =
      (CacheFile.truncated, Except.error PyErr.indexError) := by
  have h := short_line_fails_and_fault_propagates
  exact ⟨h.1 ["2024", "Mar", "05", "120"] (by decide),
         h.2 CacheFile.truncated none 200 ["2024 Mar 05 120 6"] false true
           PyErr.indexError rfl rfl⟩

/-- Claim C4, counterexample: a 404 fetch yields the empty snapshot (date
`None`, no fields) as a normal value; against the populated cached snapshot
`snapA` the detector reports it NEW and writes it to the cache file — the
claim's "never persisted or reported as new" is false on the code. -/
theorem empty_payload_persisted :
    download_flux 404 [] = Except.ok ⟨none, []⟩
  ∧ noaaDetect (CacheFile.stored snapA) (download_flux 404 []) =
      (CacheFile.stored (⟨none, []⟩ : NoaaData SunRecord),
        Except.ok ((⟨none, []⟩ : NoaaData SunRecord), true))
  ∧ ¬ snapA.date = none :=
  ⟨rfl, rfl, by decide⟩

/-- Claim C4, amended: a non-success status does yield the empty snapshot as
"no data this cycle" rather than an error, but downstream that snapshot IS
reported as new and persisted whenever the prior cache entry is absent or
carries a non-`None` issued date; it is treated as unchanged only when the
prior snapshot's issued date is also `None`. -/
theorem empty_payload_detection (status : Nat) (body : List String)
    (cache : CacheFile SunRecord) (cached : Option (NoaaData SunRecord))
    (hs : ¬ status = 200) (hc : readcache cache = Except.ok cached) :
    download_flux status body = Except.ok ⟨none, []⟩
  ∧ ((noaaDetect cache (download_flux status body)).2 =
        Except.ok ((⟨none, []⟩ : NoaaData SunRecord), false) ↔
      ∃ c, cached = some c ∧ c.date = none)
  ∧ ((∀ c, cached = some c → ¬ c.date = none) →
      (noaaDetect cache (download_flux status body)).1 =
        CacheFile.stored (⟨none, []⟩ : NoaaData SunRecord)) := by
  have h1 : download_flux status body = Except.ok ⟨none, []⟩ := by
    unfold download_flux
    rw [if_neg hs]
  refine ⟨h1, ?_, ?_⟩ <;> rw [h1] <;> unfold noaaDetect <;> rw [hc]
  · cases cached with
    | none => simp [noaaEq]
    | some c =>
      cases hdc : c.date with
      | none => simp [noaaEq, hdc]
      | some d => simp [noaaEq, hdc]
  · cases cached with
    | none => simp [noaaEq]
    | some c =>
      cases hdc : c.date with
      | none =>
        intro hp
        exact absurd hdc (hp c rfl)
      | some d => simp [noaaEq, hdc]

/-- Claim C4, witness: the amended statement applied at a 404 fetch against
a populated prior snapshot. -/
theorem empty_payload_detection_w :
    download_flux 404 [] = Except.ok ⟨none, []⟩
  ∧ (noaaDetect (CacheFile.stored snapB) (download_flux 404 [])).1 =
      CacheFile.stored (⟨none, []⟩ : NoaaData SunRecord) := by
  have h := empty_payload_detection 404 [] (CacheFile.stored snapB) (some snapB)
    (by decide) rfl
  refine ⟨h.1, h.2.2 ?_⟩
  intro c hcc
  cases hcc
  decide

/-- Claim C5, counterexample: with two `:Issued:` lines in the payload the
parsed `issued_at` is the timestamp of the SECOND line (2024-03-05 09:00),
not of the first (2024-03-04 12:05) — the claim's "first occurrence wins"
is false on the code. -/
theorem issued_last_occurrence_wins :
    download_flux 200 [":Issued: 2024 Mar 04 1205 UTC", ":Issued: 2024 Mar 05 0900 UTC",
        "2024 Mar 06  120   6   2"] =
      Except.ok ⟨some ⟨2024, 3, 5, 9, 0⟩, [⟨⟨2024, 3, 6, 0, 0⟩, 120, 6, 2⟩]⟩
  ∧ ¬ (⟨2024, 3, 5, 9, 0⟩ : DateTime) = ⟨2024, 3, 4, 12, 5⟩ :=
  ⟨rfl, by decide⟩

/-- Claim C5, amended: every parsable `:Issued:` line unconditionally
overwrites the snapshot's date with its own timestamp, whatever was stored
before — so with several Issued lines the LAST occurrence wins and the
earlier ones are the ignored ones. -/
theorem issued_line_overwrites_date (l : String) (rest : List String)
    (acc : NoaaData SunRecord) (d : DateTime)
    (h1 : pyStartsWith (pyStrip l) ":Issued:" = true)
    (h2 : strptimeIssued (pyStrip l) = Except.ok d) :
    parseFluxLines (l :: rest) acc = parseFluxLines rest ⟨some d, acc.fields⟩ := by
  simp [parseFluxLines, h1, h2]

/-- Claim C5, witness: the overwrite step applied to a concrete accumulator
that already holds an earlier issued date. -/
theorem issued_line_overwrites_date_w :
    parseFluxLines [":Issued: 2024 Mar 05 0900 UTC"] snapA =
      parseFluxLines [] ⟨some ⟨2024, 3, 5, 9, 0⟩, snapA.fields⟩ :=
  issued_line_overwrites_date ":Issued: 2024 Mar 05 0900 UTC" [] snapA
    ⟨2024, 3, 5, 9, 0⟩ rfl rfl

/-- Claim C6, counterexample: on a corrupted cache entry `pickle.load`
raises `UnpicklingError`, which the `except (FileNotFoundError, EOFError)`
clause of `readcache` does not catch — the load is fatal, not a degrade to
"no prior snapshot". -/
theorem corrupt_cache_is_fatal :
    readcache (CacheFile.corrupt : CacheFile SunRecord) =
      Except.error PyErr.unpicklingError := rfl

/-- Claim C6, amended: a missing entry (`FileNotFoundError`) and a truncated
entry (`EOFError`) degrade to `None`, never fatally; but a corrupted entry
whose unpickling raises `UnpicklingError` propagates as an uncaught
exception, while a stored entry loads back exactly. -/
theorem readcache_policy :
    readcache (CacheFile.missing : CacheFile SunRecord) = Except.ok none
  ∧ readcache (CacheFile.truncated : CacheFile SunRecord) = Except.ok none
  ∧ readcache (CacheFile.corrupt : CacheFile SunRecord) =
      Except.error PyErr.unpicklingError
  ∧ ∀ d : NoaaData SunRecord, readcache (CacheFile.stored d) = Except.ok (some d) :=
  ⟨rfl, rfl, rfl, fun _ => rfl⟩

/-- Claim C6, witness: the stored-entry round trip at a concrete snapshot. -/
theorem readcache_policy_w :
    readcache (CacheFile.stored snapA) = Except.ok (some snapA) :=
  readcache_policy.2.2.2 snapA

/-- Claim C7: when the detector found a new snapshot, the cache file already
holds it when the Slack upload is attempted (the write happens in
`Flux.__init__`, before `get_flux` plots and uploads), and the cache state
after the call is `stored data` whether delivery succeeded (`slackOk`) or
failed (`false`, the caught `SlackApiError`); the next cycle on the same
download therefore reports nothing new and attempts no upload — at-most-once
delivery. -/
theorem flux_cache_write_precedes_upload (cache : CacheFile SunRecord)
    (data : NoaaData SunRecord) (cached : Option (NoaaData SunRecord))
    (slackOk slackOk2 : Bool) (d0 : DateTime) (r0 : SunRecord) (rs : List SunRecord)
    (hc : readcache cache = Except.ok cached)
    (hnew : noaaEq data cached = false)
    (hd : data.date = some d0) (hf : data.fields = r0 :: rs) :
    get_flux cache (Except.ok data) slackOk =
      (CacheFile.stored data, Except.ok ⟨true, true, slackOk⟩)
  ∧ get_flux cache (Except.ok data) false =
      (CacheFile.stored data, Except.ok ⟨true, true, false⟩)
  ∧ get_flux (CacheFile.stored data) (Except.ok data) slackOk2 =
      (CacheFile.stored data, Except.ok ⟨false, false, false⟩) := by
  unfold get_flux noaaDetect
  rw [hc]
  simp [hnew, hf, hd, readcache, noaaEq_self]

/-- Claim C7, witness: a failed delivery (`slackOk = false`) still leaves
the new snapshot cached, at a concrete input. -/
theorem flux_cache_write_precedes_upload_w :
    get_flux CacheFile.missing (Except.ok snapA) false =
      (CacheFile.stored snapA, Except.ok ⟨true, true, false⟩) :=
  (flux_cache_write_precedes_upload CacheFile.missing snapA none false true
    ⟨2024, 3, 4, 12, 5⟩ ⟨⟨2024, 3, 5, 0, 0⟩, 120, 6, 2⟩ [] rfl rfl rfl rfl).1

/-- Claim C8: parsing the two-line payload of the spec yields issued_at
2024-03-04 12:05 UTC and exactly one record with date 2024-03-05, flux 120,
a_index 6, kp_index 2. -/
theorem flux_parse_example :
    download_flux 200 [":Issued: 2024 Mar 04 1205 UTC", "2024 Mar 05  120   6   2"] =
      Except.ok ⟨some ⟨2024, 3, 4, 12, 5⟩, [⟨⟨2024, 3, 5, 0, 0⟩, 120, 6, 2⟩]⟩ := rfl

/-- Claim C9: the delivered alert text drops every retained line starting
with the `No space weather` sentinel; a payload whose only content line is
the sentinel parses to a snapshot that still records that line (so it keeps
counting for equality comparisons) while its rendered text is empty. -/
theorem alerts_text_suppresses_sentinel :
    (∀ (d : NoaaData String) (f : String),
        f ∈ Alerts.textLines d → pyStartsWith f "No space weather" = false)
  ∧ Alerts.download 200 [":Issued: 2024 Mar 04 1205 UTC",
        "No space weather storms were observed for the past 24 hours."] =
      Except.ok ⟨some ⟨2024, 3, 4, 12, 5⟩,
        ["No space weather storms were observed for the past 24 hours."]⟩
  ∧ Alerts.text ⟨some ⟨2024, 3, 4, 12, 5⟩,
        ["No space weather storms were observed for the past 24 hours."]⟩ = "" := by
  refine ⟨?_, rfl, rfl⟩
  intro d f hf
  simp [Alerts.textLines, List.mem_filter] at hf
  exact hf.2

/-- Claim C9, witness: the suppression property applied to a line that does
survive the filter. -/
theorem alerts_text_suppresses_sentinel_w :
    pyStartsWith "quiet sun" "No space weather" = false :=
  alerts_text_suppresses_sentinel.1 ⟨none, ["quiet sun"]⟩ "quiet sun" (by decide)

/-- Claim C10: `get_muf` leaves the cache file untouched, behaves the same
whatever the cache holds (no cache read influences it), attempts the upload
exactly when the video file exists, and does so again on a repeated run —
the unchanged file is re-uploaded every time. -/
theorem muf_upload_no_cache (cache cache2 : CacheFile SunRecord)
    (mufExists slackOk slackOk2 : Bool) :
    (get_muf cache mufExists slackOk).1 = cache
  ∧ (get_muf cache mufExists slackOk).2.uploadAttempted = mufExists
  ∧ (get_muf cache mufExists slackOk).2 = (get_muf cache2 mufExists slackOk).2
  ∧ (get_muf ((get_muf cache mufExists slackOk).1) mufExists slackOk2).2.uploadAttempted
      = mufExists := by
  cases mufExists <;> simp [get_muf]

/-- Claim C10, witness: with the file present the upload is attempted, at a
concrete cache state. -/
theorem muf_upload_no_cache_w :
    (get_muf CacheFile.missing true false).2.uploadAttempted = true :=
  (muf_upload_no_cache CacheFile.missing CacheFile.corrupt true false true).2.1
